import Mathlib

/-!
Verification of the model-dispatch and deliberation orchestrator of the
`ai-roundtable` repository, as a shallow embedding in Lean 4.

Python strings are modelled as `List Char`; IEEE floating-point numbers are
modelled as exact rational values (the unnormalised-fraction type `Fl`
below, whose arithmetic is plain `Int`/`Nat` arithmetic); Python
`round(x, n)` (round half to even) is modelled by `pyRound`; wall-clock
measurements (latencies) are not part of the embedding.  Network calls are modelled by oracle functions ("backends")
mapping a model alias (and, for the gateway, an attempt index) to the outcome
of one HTTP attempt.  Unbounded recursion in the source (the recursive
fallback hop of `CouncilGateway.call_model` and of
`ParallelExecutor._execute_model`) is modelled with an explicit fuel
parameter: a result of `none` means the recursion did not terminate within
the given fuel, and divergence is expressed as `∀ fuel, ... = none`.
-/

/-- Python strings are modelled as lists of characters. -/
abbrev Str := List Char

/-- Python substring containment `needle in hay` (note `"" in s` is `True`). -/
def containsSub (needle : Str) : Str → Bool
  | [] => needle.isEmpty
  | c :: rest => needle.isPrefixOf (c :: rest) || containsSub needle rest

/-- ASCII lower-casing of one character, as Python `str.lower` acts on
the ASCII queries and keywords involved here. -/
def pyLowerChar (c : Char) : Char :=
  if 65 ≤ c.toNat ∧ c.toNat ≤ 90 then Char.ofNat (c.toNat + 32) else c

/-- ASCII upper-casing of one character, as Python `str.upper` acts on ASCII. -/
def pyUpperChar (c : Char) : Char :=
  if 97 ≤ c.toNat ∧ c.toNat ≤ 122 then Char.ofNat (c.toNat - 32) else c

/-- Python `s.lower()` on ASCII text. -/
def lowerStr (s : Str) : Str := s.map pyLowerChar

/-- Python `s.upper()` on ASCII text. -/
def upperStr (s : Str) : Str := s.map pyUpperChar

/-- Lookup in an association list keyed by strings; models Python
`dict.get(key)` for the (insertion-ordered) dict literals of the source. -/
def lookupStr {α : Type} (l : List (Str × α)) (k : Str) : Option α :=
  (l.find? (fun p => p.1 == k)).map (fun p => p.2)

/-- Python `dict.get(key, default)`. -/
def getDStr {α : Type} (l : List (Str × α)) (k : Str) (d : α) : α :=
  (lookupStr l k).getD d

/-! ## models.py -/

/-- `MODEL_FALLBACKS` from `scripts/models.py`: alias → fallback alias. -/
def MODEL_FALLBACKS : List (Str × Str) :=
  [ ("gemini-flash".toList, "gemini-flash-fallback".toList)
  , ("gemini-flash-latest".toList, "gemini-flash".toList)
  , ("deepseek-v3".toList, "gemini-flash".toList)
  , ("kimi-researcher".toList, "kimi-synthesis".toList)
  , ("kimi-synthesis".toList, "claude-sonnet".toList)
  , ("kimi-deep".toList, "kimi-synthesis".toList)
  , ("claude-sonnet".toList, "opus-synthesis".toList)
  , ("opus-synthesis".toList, "claude-sonnet".toList)
  , ("gemini-architect".toList, "gemini-flash".toList)
  , ("gemini-3-pro-semifinal".toList, "claude-sonnet".toList)
  , ("gemini-pro".toList, "claude-sonnet".toList)
  , ("gemini-pro-latest".toList, "gemini-pro".toList)
  , ("perplexity-online".toList, "gemini-flash".toList)
  , ("perplexity-researcher".toList, "gemini-flash".toList) ]

/-- `MODEL_FALLBACKS.get(model)`. -/
def modelFallbacks (m : Str) : Option Str := lookupStr MODEL_FALLBACKS m

/-- Per-tier model lists from `TIER_CONFIG` in `scripts/models.py`
(the `models` field of each tier entry). -/
def tierModels (tier : Str) : Option (List Str) :=
  lookupStr
    [ ("tier_1".toList, [ "claude-sonnet".toList ])
    , ("tier_2".toList, [ "perplexity-researcher".toList, "claude-sonnet".toList ])
    , ("tier_3".toList,
        [ "kimi-researcher".toList, "perplexity-online".toList
        , "deepseek-v3".toList, "gemini-flash".toList, "claude-sonnet".toList
        , "gemini-pro".toList, "opus-synthesis".toList ])
    , ("tier_3_lite".toList,
        [ "kimi-researcher".toList, "deepseek-v3".toList
        , "claude-sonnet".toList, "gemini-pro".toList ]) ]
    tier

/-- `ARCHITECTURAL_KEYWORDS` from `scripts/models.py`. -/
def ARCHITECTURAL_KEYWORDS : List Str :=
  [ "architecture".toList, "design".toList, "refactor".toList, "restructure".toList
  , "system".toList, "module".toList, "component".toList, "integration".toList
  , "api design".toList, "database design".toList
  , "schema".toList, "workflow".toList, "pipeline".toList, "strategy".toList
  , "pattern".toList
  , " vs ".toList, " versus ".toList, " or ".toList, " compare ".toList
  , " which ".toList, " should we use ".toList
  , "microservices".toList, "monolith".toList, "postgresql".toList
  , "mongodb".toList, "mysql".toList ]

/-- `SIMPLE_IMPLEMENTATION_KEYWORDS` from `scripts/models.py`. -/
def SIMPLE_IMPLEMENTATION_KEYWORDS : List Str :=
  [ "implement a".toList, "implement the".toList, "create a".toList
  , "create the".toList
  , "write a".toList, "write the".toList, "add a".toList, "add the".toList
  , "fix this".toList, "debug".toList, "syntax error".toList
  , "indentation".toList ]

/-- `EXTERNAL_DOCS_KEYWORDS` from `scripts/models.py`. -/
def EXTERNAL_DOCS_KEYWORDS : List Str :=
  [ "pricing".toList, "latest version".toList, "current docs".toList
  , "documentation".toList
  , "api reference".toList, "changelog".toList, "release notes".toList
  , "official docs".toList ]

/-- `classify_query_tier` from `scripts/models.py`: explicit tags first, then
simple-implementation keywords, then external-docs keywords, then
architectural keywords, else tier_1. -/
def classifyQueryTier (query : Str) : Str :=
  let ql := lowerStr query
  if containsSub ("@council_v2".toList) ql then "tier_3".toList
  else if containsSub ("@council_lite".toList) ql then "tier_3_lite".toList
  else if containsSub ("@research".toList) ql then "tier_2".toList
  else if SIMPLE_IMPLEMENTATION_KEYWORDS.any (fun kw => containsSub kw ql) then
    "tier_1".toList
  else if EXTERNAL_DOCS_KEYWORDS.any (fun kw => containsSub kw ql) then
    "tier_2".toList
  else if ARCHITECTURAL_KEYWORDS.any (fun kw => containsSub kw ql) then
    "tier_3".toList
  else "tier_1".toList

/-! ## Exact fraction arithmetic

The Python float arithmetic on the budget/cost quantities of this code base is
modelled exactly: `Fl` is a fraction `num / den` that is never normalised,
so every operation is plain integer arithmetic and reduces in the kernel.
All fractions built by the embedded code have positive denominators. -/

/-- An exact fraction `num / den`, modelling a Python float value. -/
structure Fl where
  num : Int
  den : Nat
deriving DecidableEq, Repr

/-- The fraction `n / 1`. -/
def Fl.ofNat (n : Nat) : Fl := ⟨n, 1⟩

/-- The fraction `n / 1` for an integer `n`. -/
def Fl.ofInt (n : Int) : Fl := ⟨n, 1⟩

/-- Fraction addition (no normalisation). -/
def Fl.add (a b : Fl) : Fl := ⟨a.num * b.den + b.num * a.den, a.den * b.den⟩

/-- Fraction subtraction (no normalisation). -/
def Fl.sub (a b : Fl) : Fl := ⟨a.num * b.den - b.num * a.den, a.den * b.den⟩

/-- Fraction multiplication (no normalisation). -/
def Fl.mul (a b : Fl) : Fl := ⟨a.num * b.num, a.den * b.den⟩

/-- Order on fractions by cross multiplication (correct whenever the
denominators are positive, which holds for every value this development
builds). -/
def Fl.le (a b : Fl) : Prop := a.num * b.den ≤ b.num * a.den

/-- Strict order on fractions by cross multiplication. -/
def Fl.lt (a b : Fl) : Prop := a.num * b.den < b.num * a.den

instance : LE Fl := ⟨Fl.le⟩

instance : LT Fl := ⟨Fl.lt⟩

instance (a b : Fl) : Decidable (a ≤ b) :=
  inferInstanceAs (Decidable (a.num * b.den ≤ b.num * a.den))

instance (a b : Fl) : Decidable (a < b) :=
  inferInstanceAs (Decidable (a.num * b.den < b.num * a.den))

/-- Python `min(a, b)` on floats (returns the first argument on ties). -/
def Fl.minF (a b : Fl) : Fl := if a ≤ b then a else b

/-- Mathematical floor of a fraction (denominator positive). -/
def Fl.floorI (a : Fl) : Int := a.num.fdiv a.den

/-- Python `round(x, d)`: round half to even at `d` decimal digits, on the
exact-fraction model of floats. -/
def pyRound (d : Nat) (q : Fl) : Fl :=
  let p : Nat := 10 ^ d
  let scaled : Fl := q.mul ⟨p, 1⟩
  let f : Int := scaled.floorI
  let r : Fl := scaled.sub (Fl.ofInt f)
  let n : Int :=
    if r < (⟨1, 2⟩ : Fl) then f
    else if (⟨1, 2⟩ : Fl) < r then f + 1
    else if f % 2 == 0 then f else f + 1
  ⟨n, p⟩

/-! ## dashboard/backend/pricing.py -/

/-- `MODEL_PRICING` from `dashboard/backend/pricing.py`: underlying model →
(input price per 1M tokens, output price per 1M tokens).  The `provider`
field is not used by any computation modelled here. -/
def MODEL_PRICING : List (Str × (Fl × Fl)) :=
  [ ("claude-opus-4-5-20251101".toList, (⟨15, 1⟩, ⟨75, 1⟩))
  , ("claude-sonnet-4-20250514".toList, (⟨3, 1⟩, ⟨15, 1⟩))
  , ("claude-haiku-4-20250514".toList, (⟨80, 100⟩, ⟨4, 1⟩))
  , ("gemini-3-pro-preview".toList, (⟨0, 1⟩, ⟨0, 1⟩))
  , ("gemini-2.0-flash".toList, (⟨75, 1000⟩, ⟨30, 100⟩))
  , ("gemini-2.0-flash-thinking".toList, (⟨75, 1000⟩, ⟨30, 100⟩))
  , ("deepseek-chat".toList, (⟨27, 100⟩, ⟨110, 100⟩))
  , ("deepseek-reasoner".toList, (⟨55, 100⟩, ⟨219, 100⟩))
  , ("kimi-k2-thinking-turbo".toList, (⟨120, 100⟩, ⟨12, 1⟩))
  , ("kimi-k2-thinking".toList, (⟨120, 100⟩, ⟨12, 1⟩))
  , ("kimi-k2.5".toList, (⟨120, 100⟩, ⟨12, 1⟩))
  , ("gemini-2.0-flash-exp".toList, (⟨75, 1000⟩, ⟨30, 100⟩)) ]

/-- `COUNCIL_MODEL_ALIASES` from `dashboard/backend/pricing.py`. -/
def COUNCIL_MODEL_ALIASES : List (Str × Str) :=
  [ ("gemini-architect".toList, "gemini-2.0-flash-exp".toList)
  , ("gemini-flash".toList, "gemini-2.0-flash".toList)
  , ("gemini-flash-latest".toList, "gemini-2.0-flash-exp".toList)
  , ("gemini-flash-fallback".toList, "gemini-2.0-flash".toList)
  , ("gemini-3-pro-semifinal".toList, "gemini-2.0-flash".toList)
  , ("gemini-pro".toList, "gemini-2.0-flash-exp".toList)
  , ("gemini-pro-latest".toList, "gemini-3-pro-preview".toList)
  , ("deepseek-v3".toList, "deepseek-chat".toList)
  , ("deepseek-security".toList, "deepseek-reasoner".toList)
  , ("kimi-researcher".toList, "kimi-k2-thinking-turbo".toList)
  , ("kimi-deep".toList, "kimi-k2-thinking".toList)
  , ("kimi-synthesis".toList, "kimi-k2.5".toList)
  , ("claude-sonnet".toList, "claude-sonnet-4-20250514".toList)
  , ("opus-synthesis".toList, "claude-opus-4-5-20251101".toList)
  , ("perplexity-online".toList, "perplexity-online".toList)
  , ("perplexity-researcher".toList, "perplexity-researcher".toList) ]

/-- `PERPLEXITY_PRICING` cost-per-search values from
`dashboard/backend/pricing.py` (0.002 and 0.001 dollars per search). -/
def PERPLEXITY_PRICING : List (Str × Fl) :=
  [ ("perplexity-online".toList, ⟨2, 1000⟩)
  , ("perplexity-researcher".toList, ⟨1, 1000⟩) ]

/-- `get_pricing` from `dashboard/backend/pricing.py`: Perplexity aliases get
their cost-per-search as input price; other aliases are resolved through
`COUNCIL_MODEL_ALIASES` and looked up in `MODEL_PRICING`, with the
conservative default `(1.0, 5.0)` for unknown underlying models. -/
def getPricing (modelAlias : Str) : Fl × Fl :=
  match lookupStr PERPLEXITY_PRICING modelAlias with
  | some costPerSearch => (costPerSearch, ⟨0, 1⟩)
  | none =>
    let underlying := getDStr COUNCIL_MODEL_ALIASES modelAlias modelAlias
    getDStr MODEL_PRICING underlying (⟨1, 1⟩, ⟨5, 1⟩)

/-- `calculate_cost` from `dashboard/backend/pricing.py`.  The token counts
are fractions because `DiamondCostPredictor` passes fractional per-model
output estimates into this function. -/
def calculateCost (model : Str) (promptTokens completionTokens : Fl) : Fl :=
  let pricing := getPricing model
  let inputCost := (promptTokens.mul ⟨1, 1000000⟩).mul pricing.1
  let outputCost := (completionTokens.mul ⟨1, 1000000⟩).mul pricing.2
  pyRound 6 (inputCost.add outputCost)

/-! ## dashboard/backend/diamond_cost_predictor.py -/

/-- Which of the three budget checks of
`DiamondCostPredictor.check_budget_reservation` produced the returned
`reason` string: `ceilingExceeded` stands for
"Cost $… exceeds per-query ceiling of $…", `insufficientBudget` for
"Insufficient budget: $… > $… remaining", `tierBudgetExceeded` for
"Tier budget exceeded: $… > $… tier budget remaining", and `available` for
"Budget available".  Only the identity of the check is modelled, not the
formatted dollar amounts inside the message. -/
inductive BudgetReason where
  | ceilingExceeded
  | insufficientBudget
  | tierBudgetExceeded
  | available
deriving DecidableEq, Repr

/-- `CostEstimate` dataclass from `diamond_cost_predictor.py`. -/
structure CostEstimate where
  tier : Str
  models : List Str
  estimated_min_cost : Fl
  estimated_max_cost : Fl
  estimated_tokens : Nat
  can_proceed : Bool
  reason : BudgetReason
deriving Repr

/-- `DiamondCostPredictor` constructor state: monthly budget and spend so
far. -/
structure DiamondCostPredictor where
  monthly_budget : Fl
  current_monthly_spend : Fl

/-- `MAX_COST_PER_QUERY = 2.50`, the per-query cost ceiling. -/
def MAX_COST_PER_QUERY : Fl := ⟨250, 100⟩

/-- `self.tier_budget_allocation.get(tier, 0.20)`: 20% for tier_1, 40% for
tier_2 and tier_3, default 20% for any other tier name (including
tier_3_lite, which is absent from the dict literal). -/
def tierBudgetAllocation (tier : Str) : Fl :=
  getDStr
    [ ("tier_1".toList, ⟨20, 100⟩)
    , ("tier_2".toList, ⟨40, 100⟩)
    , ("tier_3".toList, ⟨40, 100⟩) ] tier ⟨20, 100⟩

/-- `DiamondCostPredictor.estimate_tokens`: input tokens are
`int(len(query + "\n" + context) * 0.25)` (exact: the Nat division by 4) and
the per-model output estimates are Python `min` of a multiple of
`int(input_tokens * 0.5)` and a per-model cap (the dict literal in the
source). -/
def estimateTokens (query context : Str) : Nat × List (Str × Fl) :=
  let inputTokens : Nat := (query.length + 1 + context.length) / 4
  let base : Nat := inputTokens / 2
  (inputTokens,
    [ ("claude-sonnet".toList, Fl.minF (Fl.ofNat base) ⟨2000, 1⟩)
    , ("deepseek-v3".toList, Fl.minF ((Fl.ofNat base).mul ⟨80, 100⟩) ⟨2000, 1⟩)
    , ("gemini-flash".toList, Fl.minF ((Fl.ofNat base).mul ⟨50, 100⟩) ⟨1000, 1⟩)
    , ("kimi-researcher".toList, Fl.minF ((Fl.ofNat base).mul ⟨150, 100⟩) ⟨2000, 1⟩)
    , ("gemini-pro".toList, Fl.minF ((Fl.ofNat base).mul ⟨200, 100⟩) ⟨5000, 1⟩)
    , ("opus-synthesis".toList, Fl.minF ((Fl.ofNat base).mul ⟨150, 100⟩) ⟨4000, 1⟩)
    , ("perplexity-online".toList, ⟨500, 1⟩)
    , ("perplexity-researcher".toList, ⟨300, 1⟩) ])

/-- `DiamondCostPredictor.estimate_tier_cost`: per model, either the flat
Perplexity per-search cost or `calculate_cost`, accumulated into identical
min and max sums and rounded to 4 decimals.  The `except` branch adding the
conservative `[0.01, 0.05]` range is unreachable here: with the pricing
module importable, neither lookup raises, because `get_pricing` falls back
to a default price.  The `tier` parameter is unused, as in the source. -/
def estimateTierCost (_tier : Str) (models : List Str) (inputTokens : Nat)
    (outputPerModel : List (Str × Fl)) : Fl × Fl :=
  let sums := models.foldl
    (fun (acc : Fl × Fl) model =>
      let outputTokens := getDStr outputPerModel model ⟨1000, 1⟩
      if model == "perplexity-online".toList
          || model == "perplexity-researcher".toList then
        let cost := getDStr PERPLEXITY_PRICING model ⟨0, 1⟩
        (acc.1.add cost, acc.2.add cost)
      else
        let cost := calculateCost model (Fl.ofNat inputTokens) outputTokens
        (acc.1.add cost, acc.2.add cost))
    (⟨0, 1⟩, ⟨0, 1⟩)
  (pyRound 4 sums.1, pyRound 4 sums.2)

/-- `DiamondCostPredictor.check_budget_reservation`: the per-query ceiling,
then the monthly budget, then the tier allocation; the first failing check
supplies the reason. -/
def checkBudgetReservation (P : DiamondCostPredictor) (tier : Str)
    (estimatedCost : Fl) : Bool × BudgetReason :=
  if MAX_COST_PER_QUERY < estimatedCost then
    (false, BudgetReason.ceilingExceeded)
  else
    let remainingBudget := P.monthly_budget.sub P.current_monthly_spend
    if remainingBudget < estimatedCost then
      (false, BudgetReason.insufficientBudget)
    else
      let tierBudget := P.monthly_budget.mul (tierBudgetAllocation tier)
      let tierSpend := P.current_monthly_spend.mul (tierBudgetAllocation tier)
      if tierBudget.sub tierSpend < estimatedCost then
        (false, BudgetReason.tierBudgetExceeded)
      else
        (true, BudgetReason.available)

/-- `DiamondCostPredictor.predict_and_reserve`: resolve the model list
(`get_models_for_tier`, falling back to `["claude-sonnet"]` when that call
raises for an unknown tier), estimate tokens and cost, and check the budget
reservation on the max cost. -/
def predictAndReserve (P : DiamondCostPredictor) (query : Str)
    (context : Str) (tier : Str) (models : Option (List Str)) : CostEstimate :=
  let resolvedModels := match models with
    | some ms => ms
    | none => (tierModels tier).getD [ "claude-sonnet".toList ]
  let tokenEstimate := estimateTokens query context
  let costs := estimateTierCost tier resolvedModels tokenEstimate.1 tokenEstimate.2
  let check := checkBudgetReservation P tier costs.2
  { tier := tier
  , models := resolvedModels
  , estimated_min_cost := costs.1
  , estimated_max_cost := costs.2
  , estimated_tokens := tokenEstimate.1
  , can_proceed := check.1
  , reason := check.2 }

/-! ## scripts/opus_gatekeeper.py -/

/-- `OpusGatekeeper.MANDATORY_KEYWORDS`, in dict insertion order. -/
def MANDATORY_KEYWORDS : List (Str × List Str) :=
  [ ("strategy".toList,
      [ "strategy".toList, "strategic".toList, "roadmap".toList, "vision".toList
      , "long-term".toList
      , "architecture decision".toList, "system design".toList
      , "tech stack choice".toList
      , "should we".toList, "which approach".toList, "evaluate options".toList
      , "compare".toList ])
  , ("architecture".toList,
      [ "architecture".toList, "design".toList, "refactor".toList
      , "restructure".toList, "pattern".toList
      , "system".toList, "module".toList, "component".toList
      , "integration".toList, "api design".toList
      , "database design".toList, "schema".toList, "workflow".toList
      , "pipeline".toList ])
  , ("client_communication".toList,
      [ "client".toList, "customer".toList, "stakeholder".toList
      , "presentation".toList, "proposal".toList
      , "explain to".toList, "communicate".toList, "report".toList
      , "executive summary".toList ])
  , ("executive".toList,
      [ "executive".toList, "leadership".toList, "decision".toList
      , "approve".toList, "authorize".toList
      , "budget".toList, "timeline".toList, "resource allocation".toList
      , "priority".toList ]) ]

/-- `OpusGatekeeper.SKIP_KEYWORDS`, in dict insertion order. -/
def SKIP_KEYWORDS : List (Str × List Str) :=
  [ ("code_implementation".toList,
      [ "implement this".toList, "write code".toList, "create function".toList
      , "add method".toList
      , "implement".toList, "build this".toList, "code this".toList ])
  , ("simple_debugging".toList,
      [ "fix this bug".toList, "debug".toList, "error in".toList
      , "not working".toList
      , "throws error".toList, "fails".toList, "broken".toList ])
  , ("syntax_error".toList,
      [ "syntax error".toList, "parse error".toList, "indentation".toList
      , "missing".toList
      , "unexpected token".toList, "invalid syntax".toList ]) ]

/-- First category of a keyword table one of whose keywords occurs in the
(lower-cased) query; models the nested `for` loops of
`OpusGatekeeper._classify_category`. -/
def findCategory (ql : Str) : List (Str × List Str) → Option Str
  | [] => none
  | (cat, kws) :: rest =>
    if kws.any (fun kw => containsSub (lowerStr kw) ql) then some cat
    else findCategory ql rest

/-- Result of `OpusGatekeeper._classify_category`: the Python strings
`"MANDATORY:<cat>"`, `"SKIP:<cat>"` and `"NONE"`. -/
inductive Category where
  | mandatory (cat : Str)
  | skipCat (cat : Str)
  | noneCat
deriving DecidableEq, Repr

/-- `OpusGatekeeper._classify_category`: mandatory categories are checked
before skip categories; confidence 0.9 on a match, 0.5 otherwise. -/
def classifyCategory (query : Str) : Category × Fl :=
  let ql := lowerStr query
  match findCategory ql MANDATORY_KEYWORDS with
  | some cat => (Category.mandatory cat, ⟨9, 10⟩)
  | none =>
    match findCategory ql SKIP_KEYWORDS with
    | some cat => (Category.skipCat cat, ⟨9, 10⟩)
    | none => (Category.noneCat, ⟨5, 10⟩)

/-- The query matches some mandatory-category keyword. -/
def hasMandatoryKw (query : Str) : Bool :=
  (findCategory (lowerStr query) MANDATORY_KEYWORDS).isSome

/-- The query matches some skip-category keyword. -/
def hasSkipKw (query : Str) : Bool :=
  (findCategory (lowerStr query) SKIP_KEYWORDS).isSome

/-- `OpusDecision` enum from `opus_gatekeeper.py`. -/
inductive OpusDecision where
  | INVOKE
  | SKIP
  | BUDGET_BLOCK
deriving DecidableEq, Repr

/-- Which branch of `OpusGatekeeper.should_invoke_opus` produced the
`reason` string of the result (the formatted message text itself is not
modelled). -/
inductive GateReason where
  | mandatoryCategory
  | mandatoryBudgetInsufficient
  | skipCategory
  | budgetGateExceeded
  | tierDefault
  | tierBudgetInsufficient
  | noOpusRequired
deriving DecidableEq, Repr

/-- `GatekeeperResult` dataclass from `opus_gatekeeper.py`. -/
structure GatekeeperResult where
  decision : OpusDecision
  reason : GateReason
  confidence : Fl
  category : Category
  tier : Str
  budget_remaining : Fl
  budget_threshold : Fl
deriving Repr

/-- `OpusGatekeeper` constructor state: monthly budget, spend so far, and
the budget-gate threshold (default `BUDGET_GATE_THRESHOLD = 0.40`). -/
structure OpusGatekeeper where
  monthly_budget : Fl
  current_monthly_spend : Fl
  budget_threshold : Fl

/-- `BUDGET_GATE_THRESHOLD = 0.40` (40% of the monthly budget). -/
def BUDGET_GATE_THRESHOLD : Fl := ⟨40, 100⟩

/-- `MIN_OPUS_BUDGET = 0.50`, the minimum remaining budget for an Opus
invocation. -/
def MIN_OPUS_BUDGET : Fl := ⟨50, 100⟩

/-- An `OpusGatekeeper` with the default budget-gate threshold, as built by
`OpusGatekeeper(monthly_budget=…, current_monthly_spend=…)`. -/
def mkGatekeeper (budget spend : Fl) : OpusGatekeeper :=
  ⟨budget, spend, BUDGET_GATE_THRESHOLD⟩

/-- `self.budget_gate = monthly_budget * budget_threshold`. -/
def OpusGatekeeper.budget_gate (g : OpusGatekeeper) : Fl :=
  g.monthly_budget.mul g.budget_threshold

/-- `OpusGatekeeper._check_budget`: remaining budget and whether it reaches
the invocation floor. -/
def checkBudget (g : OpusGatekeeper) : Bool × Fl :=
  let remaining := g.monthly_budget.sub g.current_monthly_spend
  (decide (MIN_OPUS_BUDGET ≤ remaining), remaining)

/-- `OpusGatekeeper._check_tier_eligibility`: tier_3 gets Opus by default. -/
def checkTierEligibility (tier : Str) : Bool :=
  tier == "tier_3".toList

/-- `OpusGatekeeper.should_invoke_opus`: classify the tier (if not given)
and the category, then apply the decision cascade of the source: mandatory
category (invoke or budget-block), skip category, budget gate, tier-3
eligibility, default skip. -/
def shouldInvokeOpus (g : OpusGatekeeper) (query : Str)
    (tier : Option Str) : GatekeeperResult :=
  let resolvedTier := match tier with
    | some t => t
    | none => classifyQueryTier query
  let classified := classifyCategory query
  let budget := checkBudget g
  let mkResult := fun (d : OpusDecision) (why : GateReason) (conf : Fl) =>
    { decision := d
    , reason := why
    , confidence := conf
    , category := classified.1
    , tier := resolvedTier
    , budget_remaining := budget.2
    , budget_threshold := g.budget_gate : GatekeeperResult }
  match classified.1 with
  | Category.mandatory _ =>
    if budget.1 then mkResult OpusDecision.INVOKE GateReason.mandatoryCategory classified.2
    else mkResult OpusDecision.BUDGET_BLOCK GateReason.mandatoryBudgetInsufficient ⟨1, 1⟩
  | Category.skipCat _ =>
    mkResult OpusDecision.SKIP GateReason.skipCategory classified.2
  | Category.noneCat =>
    if g.budget_gate < g.current_monthly_spend then
      mkResult OpusDecision.BUDGET_BLOCK GateReason.budgetGateExceeded ⟨8, 10⟩
    else if checkTierEligibility resolvedTier then
      if budget.1 then mkResult OpusDecision.INVOKE GateReason.tierDefault ⟨7, 10⟩
      else mkResult OpusDecision.BUDGET_BLOCK GateReason.tierBudgetInsufficient ⟨7, 10⟩
    else
      mkResult OpusDecision.SKIP GateReason.noOpusRequired ⟨6, 10⟩

/-- `OpusGatekeeper.recommend_degradation`: `gemini-pro` on a budget block
or on an explicit skip at tier_3, otherwise nothing. -/
def recommendDegradation (result : GatekeeperResult) : Option Str :=
  if result.decision == OpusDecision.INVOKE then none
  else if result.decision == OpusDecision.BUDGET_BLOCK then
    some ("gemini-pro".toList)
  else if result.decision == OpusDecision.SKIP
      && result.tier == "tier_3".toList then
    some ("gemini-pro".toList)
  else none

/-! ## scripts/gateway.py -/

/-- Outcome of one `requests.post` attempt inside
`CouncilGateway.call_model`, as decided by the environment: a parsed 2xx
response with content and total token usage, a 2xx response whose JSON lacks
the expected content field (`KeyError`/`IndexError`/`TypeError`), a
`requests.exceptions.Timeout`, another `requests.exceptions.RequestException`,
or any other exception. -/
inductive BackendOutcome where
  | ok (content : Str) (totalTokens : Nat)
  | malformed (msg : Str)
  | timeout
  | requestFailed (msg : Str)
  | otherExc (msg : Str)
deriving DecidableEq, Repr

/-- Which error message family a failed gateway result dict carries
("Invalid response format: …", "Request timeout after …s",
"Request failed: …", "Unexpected error: …", "Max retries exceeded"). -/
inductive GwErr where
  | invalidFormat
  | timeoutErr
  | requestFailedErr
  | unexpectedErr
  | maxRetriesExceeded
deriving DecidableEq, Repr

/-- The result dict of `CouncilGateway.call_model`
(`success`, `content`, `model`, `tokens`, `error`). -/
structure GwResponse where
  success : Bool
  content : Option Str
  model : Str
  tokens : Nat
  error : Option GwErr
deriving DecidableEq, Repr

/-- `self.max_retries = 2` of `CouncilGateway`. -/
def maxRetries : Nat := 2

/-- The retry loop `for attempt in range(self.max_retries + 1)` of
`CouncilGateway.call_model`, for one model alias.  `backend model idx` is
the outcome of the HTTP attempt with index `idx`; `recurse` is the fresh
recursive `call_model` on the fallback alias taken when the first attempt
raises a non-timeout request failure and a fallback is configured.  The
second component counts HTTP attempts made (including those of recursive
fallback calls), used for the attempt-bound property.  The `attemptsLeft = 0`
case is the `return` after the loop ("Max retries exceeded"), unreachable
from a full loop. -/
def callModelGo (fallbacks : Str → Option Str)
    (backend : Str → Nat → BackendOutcome)
    (recurse : Str → Option (GwResponse × Nat)) (model : Str) :
    Nat → Nat → Option (GwResponse × Nat)
  | 0, _ =>
    some (⟨false, none, model, 0, some GwErr.maxRetriesExceeded⟩, 0)
  | n + 1, idx =>
    match backend model idx with
    | BackendOutcome.ok content toks =>
      some (⟨true, some content, model, toks, none⟩, 1)
    | BackendOutcome.malformed _ =>
      some (⟨false, none, model, 0, some GwErr.invalidFormat⟩, 1)
    | BackendOutcome.timeout =>
      if idx < maxRetries then
        (callModelGo fallbacks backend recurse model n (idx + 1)).map
          (fun p => (p.1, p.2 + 1))
      else
        some (⟨false, none, model, 0, some GwErr.timeoutErr⟩, 1)
    | BackendOutcome.requestFailed _ =>
      match fallbacks model with
      | some fb =>
        if !fb.isEmpty && idx == 0 then
          (recurse fb).map (fun p => (p.1, p.2 + 1))
        else
          some (⟨false, none, model, 0, some GwErr.requestFailedErr⟩, 1)
      | none =>
        some (⟨false, none, model, 0, some GwErr.requestFailedErr⟩, 1)
    | BackendOutcome.otherExc _ =>
      some (⟨false, none, model, 0, some GwErr.unexpectedErr⟩, 1)

/-- `CouncilGateway.call_model` with the fallback chain `fallbacks` (the
source reads the module-level `MODEL_FALLBACKS`, i.e. `modelFallbacks`).
The recursive fallback hop of the source has no cycle protection, so it is
modelled with fuel: `none` means the recursion did not terminate within
`fuel` nested calls. -/
def callModel (fallbacks : Str → Option Str)
    (backend : Str → Nat → BackendOutcome) :
    Nat → Str → Option (GwResponse × Nat)
  | 0, _ => none
  | fuel + 1, model =>
    callModelGo fallbacks backend (callModel fallbacks backend fuel) model
      (maxRetries + 1) 0

/-! ## scripts/parallel_executor.py -/

/-- Error description of a failed executor `ModelResponse`:
`timeoutAfter` stands for the "Timeout after …s" message, `excMsg` for
`str(e)` of a caught exception, `execError` for the
"Execution error: …" message built in `execute_parallel` when a future
itself raises, `architectFailed` for the "Architect failed, skipping"
message of `execute_diamond_debate`. -/
inductive ExecErr where
  | timeoutAfter
  | excMsg (msg : Str)
  | execError (msg : Str)
  | architectFailed
deriving DecidableEq, Repr

/-- `ModelResponse` dataclass from `parallel_executor.py`.  The wall-clock
`latency_seconds` field is not modelled (real time is outside the
embedding). -/
structure ModelResponse where
  model : Str
  content : Str
  success : Bool
  cost : Fl
  tokens_used : Nat
  error : Option ExecErr
  fallback_used : Option Str
deriving DecidableEq, Repr

/-- `ParallelExecutor._estimate_cost`: the local per-1M-token price table of
the executor, with a default estimate of $0.01 for unknown models. -/
def estimateCostExec (model : Str) (promptTokens completionTokens : Nat) : Fl :=
  match lookupStr
      [ ("claude-sonnet".toList, ((⟨3, 1⟩ : Fl), (⟨15, 1⟩ : Fl)))
      , ("deepseek-v3".toList, (⟨27, 100⟩, ⟨110, 100⟩))
      , ("gemini-flash".toList, (⟨75, 1000⟩, ⟨30, 100⟩))
      , ("kimi-researcher".toList, (⟨120, 100⟩, ⟨12, 1⟩))
      , ("gemini-pro".toList, (⟨75, 1000⟩, ⟨30, 100⟩))
      , ("opus-synthesis".toList, (⟨15, 1⟩, ⟨75, 1⟩)) ] model with
  | some pricing =>
    ((Fl.ofNat promptTokens).mul ⟨1, 1000000⟩).mul pricing.1 |>.add
      (((Fl.ofNat completionTokens).mul ⟨1, 1000000⟩).mul pricing.2)
  | none => ⟨1, 100⟩

/-- Outcome of the one `requests.post` of `ParallelExecutor._execute_model`
for a given alias (this function has no retry loop): a parsed 2xx response,
a `requests.exceptions.Timeout`, or any other exception. -/
inductive ExecOutcome where
  | ok (content : Str) (promptTokens completionTokens totalTokens : Nat)
  | timeout
  | exc (msg : Str)
deriving DecidableEq, Repr

/-- The failed response built by the timeout branch of `_execute_model`. -/
def execTimeoutResp (model : Str) : ModelResponse :=
  ⟨model, [], false, ⟨0, 1⟩, 0, some ExecErr.timeoutAfter, none⟩

/-- The failed response built by the generic exception branch of
`_execute_model` when no fallback applies. -/
def execExcResp (model : Str) (msg : Str) : ModelResponse :=
  ⟨model, [], false, ⟨0, 1⟩, 0, some (ExecErr.excMsg msg), none⟩

/-- `ParallelExecutor._execute_model` (its gateway branch; the direct
Perplexity-API branch for `perplexity-*` aliases is not exercised by any
property here).  There is no retry loop: a success returns at once; a
timeout or any other exception hops to `MODEL_FALLBACKS.get(model)` when
that fallback exists, is non-empty and differs from the current alias —
recursively, with no cycle protection, hence the fuel — and only the
generic-exception hop tags `fallback_used` and rewrites the `model` field
to "model (via fallback)". -/
def executeModel (fallbacks : Str → Option Str)
    (backend : Str → ExecOutcome) : Nat → Str → Option ModelResponse
  | 0, _ => none
  | fuel + 1, model =>
    match backend model with
    | ExecOutcome.ok content promptToks compToks totalToks =>
      some ⟨model, content, true, estimateCostExec model promptToks compToks,
        totalToks, none, none⟩
    | ExecOutcome.timeout =>
      match fallbacks model with
      | some fb =>
        if !fb.isEmpty && fb != model then
          executeModel fallbacks backend fuel fb
        else
          some (execTimeoutResp model)
      | none => some (execTimeoutResp model)
    | ExecOutcome.exc msg =>
      match fallbacks model with
      | some fb =>
        if !fb.isEmpty && fb != model then
          (executeModel fallbacks backend fuel fb).map
            (fun r =>
              { r with
                fallback_used := some model
                model := model ++ " (via ".toList ++ fb ++ ")".toList })
        else
          some (execExcResp model msg)
      | none => some (execExcResp model msg)

/-- `ParallelResult` dataclass from `parallel_executor.py`. -/
structure ParallelResult where
  responses : List ModelResponse
  total_latency : Fl
  total_cost : Fl
  total_tokens : Nat
  success_count : Nat
  failure_count : Nat
deriving Repr

/-- The `for future in as_completed(...)` body of
`ParallelExecutor.execute_parallel`: `future.result()` either yields the
`ModelResponse` built by `_execute_model` (which catches its own
exceptions) or raises, in which case a failed response with the
"Execution error: …" message is appended for the model of that future. -/
def settleFuture (model : Str) : Except Str ModelResponse → ModelResponse
  | Except.ok r => r
  | Except.error e => ⟨model, [], false, ⟨0, 1⟩, 0,
      some (ExecErr.execError e), none⟩

/-- `ParallelExecutor.execute_parallel`.  One future is submitted per model
of the stage; `completed` lists the settled futures in completion order
(non-deterministic under the thread pool, hence a parameter), each carrying
its model alias and either a `ModelResponse` or a raised exception; the
wall-clock stage span `elapsed` is an environment input.  Every future is
collected — exactly one response per submitted model — and the aggregate
counts are computed from the collected responses. -/
def executeParallel (elapsed : Fl)
    (completed : List (Str × Except Str ModelResponse)) : ParallelResult :=
  let responses := completed.map (fun p => settleFuture p.1 p.2)
  let total_cost := responses.foldl (fun acc r => acc.add r.cost) ⟨0, 1⟩
  let total_tokens := responses.foldl (fun acc r => acc + r.tokens_used) 0
  let success_count := responses.countP (fun r => r.success)
  { responses := responses
  , total_latency := elapsed
  , total_cost := total_cost
  , total_tokens := total_tokens
  , success_count := success_count
  , failure_count := responses.length - success_count }

/-- `DiamondOrchestrator._extract_recommendation`: note the source checks
"APPROVED and not CONDITIONAL" first, then "REJECTED", then
"CONDITIONAL or NEEDS_DEBATE", else "UNCLEAR". -/
def extractRecommendation (content : Str) : Str :=
  let contentUpper := upperStr content
  if containsSub ("APPROVED".toList) contentUpper
      && !containsSub ("CONDITIONAL".toList) contentUpper then
    "APPROVED".toList
  else if containsSub ("REJECTED".toList) contentUpper then
    "REJECTED".toList
  else if containsSub ("CONDITIONAL".toList) contentUpper
      || containsSub ("NEEDS_DEBATE".toList) contentUpper then
    "CONDITIONAL".toList
  else
    "UNCLEAR".toList

/-- `DiamondOrchestrator._should_invoke_opus`: the ratification policy
(`always` / `never` / `conditional`). -/
def shouldInvokeOpusThreshold (recommendation threshold : Str) : Bool :=
  if threshold == "always".toList then true
  else if threshold == "never".toList then false
  else if threshold == "conditional".toList then
    recommendation != "APPROVED".toList
  else false

/-- The ASCII apostrophe character, used inside prompt-template text. -/
def apos : Str := [Char.ofNat 39]

/-- Leading template text of the Architect prompt (step 1 of
`execute_diamond_debate`). -/
def step1PromptPre : Str :=
  "You are the Architect. Propose a high-level technical solution for: ".toList

/-- Trailing template text of the Architect prompt. -/
def step1PromptPost : Str :=
  "\n\nStructure your response as:\n1) Problem Statement\n2) Recommended Approach\n3) Key Components\n4) Potential Risks\n\nBe concise but thorough.".toList

/-- Step-1 prompt of `execute_diamond_debate`: the topic and the optional
focus sentence interpolated into the Architect template. -/
def step1Prompt (topic : Str) (focus : Option Str) : Str :=
  let focusPrompt := match focus with
    | some f => " Focus your analysis on: ".toList ++ f ++ ".".toList
    | none => []
  step1PromptPre ++ topic ++ "\n\n".toList ++ focusPrompt ++ step1PromptPost

/-- Leading template text of the Auditor prompt (step 2), up to the embedded
Architect proposal. -/
def step2PromptPre : Str :=
  "You are the Auditor. Critique this proposal for security, logic flaws, and edge cases. Be thorough but constructive.\n\nPROPOSAL:\n".toList

/-- Trailing template text of the Auditor prompt. -/
def step2PromptPost : Str :=
  "\n\nFocus on:\n1) Security vulnerabilities\n2) Logic flaws or edge cases\n3) Scalability concerns\n4) Missing considerations\n\nProvide specific, actionable critique.".toList

/-- Step-2 prompt of `execute_diamond_debate`: the Architect proposal
`step1.content` is interpolated verbatim into the Auditor template. -/
def step2Prompt (proposal : Str) : Str :=
  step2PromptPre ++ proposal ++ step2PromptPost

/-- Leading template text of the Contextualist prompt (step 3). -/
def step3PromptPre : Str :=
  "You are the Contextualist with 256k context awareness. Analyze this proposal and critique from the perspective of: existing codebase patterns, integration points, historical decisions, and project context.\n\nPROPOSAL:\n".toList

/-- Template text between the proposal and the critique in the
Contextualist prompt. -/
def step3PromptMid : Str :=
  "\n\nAUDITOR".toList ++ apos ++ "S CRITIQUE:\n".toList

/-- Template text after the critique in the Contextualist prompt. -/
def step3PromptPost : Str :=
  "\n\nProvide:\n1) Connection to existing codebase patterns\n2) Integration points with current system\n3) Edge cases from project history\n4) Recommendations for alignment with current architecture\n\nBe specific about what already exists in the codebase that should be leveraged or followed.\n\n".toList

/-- Step-3 prompt of `execute_diamond_debate`: the proposal and the critique
are interpolated verbatim, followed by the optional caller context. -/
def step3Prompt (proposal critique context : Str) : Str :=
  step3PromptPre ++ proposal ++ step3PromptMid ++ critique
    ++ step3PromptPost ++ context

/-- Leading template text of the Judge prompt (step 4). -/
def step4PromptPre : Str :=
  "You are the Supreme Court Judge. Synthesize a final decision based on this proposal, critique, and context-aware analysis.\n\nPROPOSAL:\n".toList

/-- Template text between the proposal and the critique in the Judge
prompt. -/
def step4PromptMid1 : Str :=
  "\n\nAUDITOR".toList ++ apos ++ "S CRITIQUE:\n".toList

/-- Template text between the critique and the analysis in the Judge
prompt. -/
def step4PromptMid2 : Str :=
  "\n\nCONTEXTUALIST".toList ++ apos ++ "S ANALYSIS:\n".toList

/-- Trailing template text of the Judge prompt. -/
def step4PromptPost : Str :=
  "\n\nWeigh all perspectives and issue a final decree with:\n1) Analysis of key points\n2) Accepted recommendations\n3) Final decision or implementation plan\n\nBe decisive and actionable.".toList

/-- Step-4 prompt of `execute_diamond_debate`: the proposal, critique and
contextual analysis are interpolated verbatim into the Judge template. -/
def step4Prompt (proposal critique analysis : Str) : Str :=
  step4PromptPre ++ proposal ++ step4PromptMid1 ++ critique
    ++ step4PromptMid2 ++ analysis ++ step4PromptPost

/-- `DiamondDebateResult` dataclass from `parallel_executor.py` (wall-clock
`total_latency` omitted, as for `ModelResponse`). -/
structure DiamondDebateResult where
  step1_architect : ModelResponse
  step2_auditor : ModelResponse
  step3_contextualist : ModelResponse
  step4_judge : ModelResponse
  total_cost : Fl
  total_tokens : Nat
deriving Repr

/-- `DiamondOrchestrator.execute_diamond_debate`: the strictly sequential
Architect → Auditor → Contextualist → Judge protocol.  `call model prompt`
is the oracle for `self.executor._execute_model` (whose `max_tokens` and
`timeout` arguments do not affect the modelled result fields).  If the
Architect step fails, the remaining steps are skipped and reported failed
with the "Architect failed, skipping" error. -/
def executeDiamondDebate (call : Str → Str → ModelResponse)
    (topic : Str) (focus : Option Str) (context : Str) : DiamondDebateResult :=
  let step1 := call ("gemini-architect".toList) (step1Prompt topic focus)
  if !step1.success then
    let skipped := fun (m : Str) =>
      (⟨m, [], false, ⟨0, 1⟩, 0, some ExecErr.architectFailed, none⟩ : ModelResponse)
    { step1_architect := step1
    , step2_auditor := skipped ("deepseek-v3".toList)
    , step3_contextualist := skipped ("kimi-researcher".toList)
    , step4_judge := skipped ("opus-synthesis".toList)
    , total_cost := step1.cost
    , total_tokens := step1.tokens_used }
  else
    let step2 := call ("deepseek-v3".toList) (step2Prompt step1.content)
    let step3 := call ("kimi-researcher".toList)
      (step3Prompt step1.content step2.content context)
    let step4 := call ("opus-synthesis".toList)
      (step4Prompt step1.content step2.content step3.content)
    { step1_architect := step1
    , step2_auditor := step2
    , step3_contextualist := step3
    , step4_judge := step4
    , total_cost := ((step1.cost.add step2.cost).add step3.cost).add step4.cost
    , total_tokens := step1.tokens_used + step2.tokens_used
        + step3.tokens_used + step4.tokens_used }

/-- An acyclic fallback chain starting at a given alias: the list of
aliases visited by following `fallbacks` from the start until an alias with
no (non-empty) fallback.  Such a finite chain exists exactly when following
the fallback configuration from the start meets no cycle. -/
inductive ChainFrom (fallbacks : Str → Option Str) : Str → List Str → Prop where
  | last (m : Str) : fallbacks m = none → ChainFrom fallbacks m [m]
  | step (m fb : Str) (rest : List Str) : fallbacks m = some fb → fb ≠ [] →
      ChainFrom fallbacks fb rest → ChainFrom fallbacks m (m :: rest)

/-! ## Theorems -/

/-- On `Fl`, failing a strict comparison is exactly the reverse non-strict
comparison (as for real numbers; no denominator hypothesis is needed since
both comparisons cross-multiply the same products). -/
theorem Fl.not_lt {a b : Fl} : ¬ a < b ↔ b ≤ a := by
  constructor
  · intro h
    exact Int.not_lt.mp h
  · intro h
    exact Int.not_lt.mpr h

/-- Branch analysis of `check_budget_reservation`: the returned flag is the
conjunction of the three checks, and the returned reason identifies the
first failing check. -/
theorem checkBudgetReservation_spec (P : DiamondCostPredictor) (tier : Str)
    (cost : Fl) :
    let remaining := P.monthly_budget.sub P.current_monthly_spend
    let tierRemaining := (P.monthly_budget.mul (tierBudgetAllocation tier)).sub
      (P.current_monthly_spend.mul (tierBudgetAllocation tier))
    ((checkBudgetReservation P tier cost).1 = true ↔
      (cost ≤ MAX_COST_PER_QUERY ∧ cost ≤ remaining ∧ cost ≤ tierRemaining)) ∧
    (MAX_COST_PER_QUERY < cost →
      (checkBudgetReservation P tier cost).2 = BudgetReason.ceilingExceeded) ∧
    (cost ≤ MAX_COST_PER_QUERY → remaining < cost →
      (checkBudgetReservation P tier cost).2 = BudgetReason.insufficientBudget) ∧
    (cost ≤ MAX_COST_PER_QUERY → cost ≤ remaining → tierRemaining < cost →
      (checkBudgetReservation P tier cost).2 = BudgetReason.tierBudgetExceeded) ∧
    (cost ≤ MAX_COST_PER_QUERY → cost ≤ remaining → cost ≤ tierRemaining →
      (checkBudgetReservation P tier cost).2 = BudgetReason.available) := by
  intro remaining tierRemaining
  simp only [checkBudgetReservation]
  split_ifs with h1 h2 h3
  · refine ⟨?_, fun _ => rfl, ?_, ?_, ?_⟩
    · simp only [false_iff]
      intro h
      exact (Fl.not_lt.mpr h.1) h1
    · intro h _
      exact absurd h1 (Fl.not_lt.mpr h)
    · intro h _ _
      exact absurd h1 (Fl.not_lt.mpr h)
    · intro h _ _
      exact absurd h1 (Fl.not_lt.mpr h)
  · refine ⟨?_, ?_, fun _ _ => rfl, ?_, ?_⟩
    · simp only [false_iff]
      intro h
      exact (Fl.not_lt.mpr h.2.1) h2
    · intro hc
      exact absurd hc h1
    · intro _ hrem _
      exact absurd h2 (Fl.not_lt.mpr hrem)
    · intro _ hrem _
      exact absurd h2 (Fl.not_lt.mpr hrem)
  · refine ⟨?_, ?_, ?_, fun _ _ _ => rfl, ?_⟩
    · simp only [false_iff]
      intro h
      exact (Fl.not_lt.mpr h.2.2) h3
    · intro hc
      exact absurd hc h1
    · intro _ hrem
      exact absurd hrem h2
    · intro _ _ ht
      exact absurd h3 (Fl.not_lt.mpr ht)
  · refine ⟨?_, ?_, ?_, ?_, fun _ _ _ => rfl⟩
    · simp only [true_iff]
      exact ⟨Fl.not_lt.mp h1, Fl.not_lt.mp h2, Fl.not_lt.mp h3⟩
    · intro hc
      exact absurd hc h1
    · intro _ hrem
      exact absurd hrem h2
    · intro _ _ ht
      exact absurd ht h3

/-- C1: `predict_and_reserve` can proceed exactly when the estimated max
cost passes, in order, the fixed $2.50 per-query ceiling, the remaining
monthly budget, and the remaining tier allocation; the first failing check
determines the reason, and `can_proceed` is never true above the ceiling. -/
theorem C1_cost_predictor_budget_checks (P : DiamondCostPredictor)
    (query context tier : Str) (models : Option (List Str)) :
    let e := predictAndReserve P query context tier models
    let remaining := P.monthly_budget.sub P.current_monthly_spend
    let tierRemaining := (P.monthly_budget.mul (tierBudgetAllocation tier)).sub
      (P.current_monthly_spend.mul (tierBudgetAllocation tier))
    (e.can_proceed = true ↔
      (e.estimated_max_cost ≤ MAX_COST_PER_QUERY ∧
       e.estimated_max_cost ≤ remaining ∧
       e.estimated_max_cost ≤ tierRemaining)) ∧
    (MAX_COST_PER_QUERY < e.estimated_max_cost →
      e.reason = BudgetReason.ceilingExceeded) ∧
    (e.estimated_max_cost ≤ MAX_COST_PER_QUERY →
      remaining < e.estimated_max_cost →
      e.reason = BudgetReason.insufficientBudget) ∧
    (e.estimated_max_cost ≤ MAX_COST_PER_QUERY →
      e.estimated_max_cost ≤ remaining →
      tierRemaining < e.estimated_max_cost →
      e.reason = BudgetReason.tierBudgetExceeded) ∧
    (e.estimated_max_cost ≤ MAX_COST_PER_QUERY →
      e.estimated_max_cost ≤ remaining →
      e.estimated_max_cost ≤ tierRemaining →
      e.reason = BudgetReason.available) ∧
    (e.can_proceed = true → e.estimated_max_cost ≤ MAX_COST_PER_QUERY) := by
  intro e remaining tierRemaining
  have h := checkBudgetReservation_spec P tier e.estimated_max_cost
  have hcan : e.can_proceed = (checkBudgetReservation P tier e.estimated_max_cost).1 := rfl
  have hreason : e.reason = (checkBudgetReservation P tier e.estimated_max_cost).2 := rfl
  rw [hcan, hreason]
  exact ⟨h.1, h.2.1, h.2.2.1, h.2.2.2.1, h.2.2.2.2,
    fun hp => ((h.1).mp hp).1⟩

/-- Witness for C1 at a concrete predictor state and query: all three
checks pass and the estimate can proceed. -/
theorem C1_witness :
    (predictAndReserve ⟨⟨100, 1⟩, ⟨30, 1⟩⟩ ("fix this syntax error".toList) []
      ("tier_1".toList) none).can_proceed = true := by
  have h := C1_cost_predictor_budget_checks ⟨⟨100, 1⟩, ⟨30, 1⟩⟩
    ("fix this syntax error".toList) [] ("tier_1".toList) none
  exact (h.1).mpr (by decide)

/-- An option whose `isSome` is `false` is `none`. -/
theorem isSome_false_eq_none {α : Type} {o : Option α}
    (h : o.isSome = false) : o = none := by
  cases o
  · rfl
  · simp at h

/-- C2: the gatekeeper decision cascade of `should_invoke_opus`, first
applicable rule winning — mandatory category with/without the $0.50 budget
floor, absolute skip category, the 40%-of-budget gate, tier_3 eligibility
with/without the floor, and the default skip.  `decideOf` abbreviates the
decision on the given state and query inside this statement. -/
theorem C2_gatekeeper_precedence (budget spend : Fl) (query tier : Str) :
    (hasMandatoryKw query = true → MIN_OPUS_BUDGET ≤ budget.sub spend →
      (shouldInvokeOpus (mkGatekeeper budget spend) query (some tier)).decision
        = OpusDecision.INVOKE) ∧
    (hasMandatoryKw query = true → ¬ MIN_OPUS_BUDGET ≤ budget.sub spend →
      (shouldInvokeOpus (mkGatekeeper budget spend) query (some tier)).decision
        = OpusDecision.BUDGET_BLOCK) ∧
    (hasMandatoryKw query = false → hasSkipKw query = true →
      (shouldInvokeOpus (mkGatekeeper budget spend) query (some tier)).decision
        = OpusDecision.SKIP) ∧
    (hasMandatoryKw query = false → hasSkipKw query = false →
      budget.mul BUDGET_GATE_THRESHOLD < spend →
      (shouldInvokeOpus (mkGatekeeper budget spend) query (some tier)).decision
        = OpusDecision.BUDGET_BLOCK) ∧
    (hasMandatoryKw query = false → hasSkipKw query = false →
      ¬ budget.mul BUDGET_GATE_THRESHOLD < spend →
      tier = "tier_3".toList → MIN_OPUS_BUDGET ≤ budget.sub spend →
      (shouldInvokeOpus (mkGatekeeper budget spend) query (some tier)).decision
        = OpusDecision.INVOKE) ∧
    (hasMandatoryKw query = false → hasSkipKw query = false →
      ¬ budget.mul BUDGET_GATE_THRESHOLD < spend →
      tier = "tier_3".toList → ¬ MIN_OPUS_BUDGET ≤ budget.sub spend →
      (shouldInvokeOpus (mkGatekeeper budget spend) query (some tier)).decision
        = OpusDecision.BUDGET_BLOCK) ∧
    (hasMandatoryKw query = false → hasSkipKw query = false →
      ¬ budget.mul BUDGET_GATE_THRESHOLD < spend →
      tier ≠ "tier_3".toList →
      (shouldInvokeOpus (mkGatekeeper budget spend) query (some tier)).decision
        = OpusDecision.SKIP) := by
  refine ⟨?_, ?_, ?_, ?_, ?_, ?_, ?_⟩
  · intro hm hf
    obtain ⟨c, hc⟩ := Option.isSome_iff_exists.mp hm
    simp [shouldInvokeOpus, classifyCategory, hc, checkBudget, mkGatekeeper,
      decide_eq_true hf]
  · intro hm hf
    obtain ⟨c, hc⟩ := Option.isSome_iff_exists.mp hm
    simp [shouldInvokeOpus, classifyCategory, hc, checkBudget, mkGatekeeper,
      decide_eq_false hf]
  · intro hm hs
    have hmn := isSome_false_eq_none hm
    obtain ⟨c, hc⟩ := Option.isSome_iff_exists.mp hs
    simp [shouldInvokeOpus, classifyCategory, hmn, hc]
  · intro hm hs hg
    have hmn := isSome_false_eq_none hm
    have hsn := isSome_false_eq_none hs
    simp [shouldInvokeOpus, classifyCategory, hmn, hsn, mkGatekeeper,
      OpusGatekeeper.budget_gate, hg]
  · intro hm hs hg ht hf
    have hmn := isSome_false_eq_none hm
    have hsn := isSome_false_eq_none hs
    simp [shouldInvokeOpus, classifyCategory, hmn, hsn, mkGatekeeper,
      OpusGatekeeper.budget_gate, hg, checkTierEligibility, ht, checkBudget,
      decide_eq_true hf]
  · intro hm hs hg ht hf
    have hmn := isSome_false_eq_none hm
    have hsn := isSome_false_eq_none hs
    simp [shouldInvokeOpus, classifyCategory, hmn, hsn, mkGatekeeper,
      OpusGatekeeper.budget_gate, hg, checkTierEligibility, ht, checkBudget,
      decide_eq_false hf]
  · intro hm hs hg ht
    have hmn := isSome_false_eq_none hm
    have hsn := isSome_false_eq_none hs
    simp only [shouldInvokeOpus, classifyCategory, hmn, hsn, mkGatekeeper,
      OpusGatekeeper.budget_gate, checkTierEligibility, beq_iff_eq,
      if_neg hg, if_neg ht]

/-- Witness for C2 at a concrete state: a mandatory-category query with the
budget floor satisfied is INVOKEd. -/
theorem C2_witness :
    hasMandatoryKw ("design a new auth system architecture".toList) = true ∧
    (shouldInvokeOpus (mkGatekeeper ⟨100, 1⟩ ⟨30, 1⟩)
      ("design a new auth system architecture".toList)
      (some ("tier_3".toList))).decision = OpusDecision.INVOKE := by
  refine ⟨by decide, ?_⟩
  have h := C2_gatekeeper_precedence ⟨100, 1⟩ ⟨30, 1⟩
    ("design a new auth system architecture".toList) ("tier_3".toList)
  exact h.1 (by decide) (by decide)

/-- C3 counterexample: the query "implement the architecture" contains the
skip keyword "implement", yet with ample budget and tier_3 the gatekeeper
returns INVOKE, because its mandatory keyword "architecture" is matched
first — so a skip-keyword query can be INVOKEd, contrary to the claim. -/
theorem C3_counterexample :
    (SKIP_KEYWORDS.any (fun p => p.2.any (fun kw =>
      containsSub (lowerStr kw) (lowerStr ("implement the architecture".toList))))
        = true) ∧
    (shouldInvokeOpus (mkGatekeeper ⟨100, 1⟩ ⟨0, 1⟩)
      ("implement the architecture".toList)
      (some ("tier_3".toList))).decision = OpusDecision.INVOKE := by
  decide

/-- C3 (amended): a query that contains a skip keyword and no mandatory
keyword is decided SKIP — in particular never INVOKE — for every tier
argument (explicit or classified) and every budget state. -/
theorem C3_skip_keyword_never_invokes (budget spend : Fl) (query : Str)
    (tier : Option Str) (hm : hasMandatoryKw query = false)
    (hs : hasSkipKw query = true) :
    (shouldInvokeOpus (mkGatekeeper budget spend) query tier).decision
      = OpusDecision.SKIP := by
  have hmn := isSome_false_eq_none hm
  obtain ⟨c, hc⟩ := Option.isSome_iff_exists.mp hs
  simp [shouldInvokeOpus, classifyCategory, hmn, hc]

/-- Witness for the amended C3: "fix this bug" matches only skip keywords
and is SKIPped even at tier_3 with a large budget. -/
theorem C3_witness :
    hasMandatoryKw ("fix this bug".toList) = false ∧
    hasSkipKw ("fix this bug".toList) = true ∧
    (shouldInvokeOpus (mkGatekeeper ⟨1000000, 1⟩ ⟨0, 1⟩) ("fix this bug".toList)
      (some ("tier_3".toList))).decision = OpusDecision.SKIP :=
  ⟨by decide, by decide,
    C3_skip_keyword_never_invokes ⟨1000000, 1⟩ ⟨0, 1⟩ ("fix this bug".toList)
      (some ("tier_3".toList)) (by decide) (by decide)⟩

/-- C4 counterexample: "approved rejected" contains "REJECTED"
case-insensitively, yet extraction returns APPROVED, not REJECTED — the
source checks "APPROVED and not CONDITIONAL" before "REJECTED". -/
theorem C4_counterexample :
    containsSub ("REJECTED".toList) (upperStr ("approved rejected".toList)) = true ∧
    extractRecommendation ("approved rejected".toList) = "APPROVED".toList ∧
    extractRecommendation ("approved rejected".toList) ≠ "REJECTED".toList := by
  decide

/-- C4 (amended): `_extract_recommendation` checks, case-insensitively and
in this order: APPROVED present with CONDITIONAL absent → APPROVED; else
REJECTED present → REJECTED; else CONDITIONAL or NEEDS_DEBATE present →
CONDITIONAL; else UNCLEAR.  In particular a text containing APPROVED and
CONDITIONAL but not REJECTED yields CONDITIONAL, and a text containing none
of the tokens yields UNCLEAR. -/
theorem C4_extract_recommendation_order (content : Str) :
    (containsSub ("APPROVED".toList) (upperStr content) = true →
      containsSub ("CONDITIONAL".toList) (upperStr content) = false →
      extractRecommendation content = "APPROVED".toList) ∧
    ((containsSub ("APPROVED".toList) (upperStr content)
        && !containsSub ("CONDITIONAL".toList) (upperStr content)) = false →
      containsSub ("REJECTED".toList) (upperStr content) = true →
      extractRecommendation content = "REJECTED".toList) ∧
    ((containsSub ("APPROVED".toList) (upperStr content)
        && !containsSub ("CONDITIONAL".toList) (upperStr content)) = false →
      containsSub ("REJECTED".toList) (upperStr content) = false →
      (containsSub ("CONDITIONAL".toList) (upperStr content)
        || containsSub ("NEEDS_DEBATE".toList) (upperStr content)) = true →
      extractRecommendation content = "CONDITIONAL".toList) ∧
    ((containsSub ("APPROVED".toList) (upperStr content)
        && !containsSub ("CONDITIONAL".toList) (upperStr content)) = false →
      containsSub ("REJECTED".toList) (upperStr content) = false →
      (containsSub ("CONDITIONAL".toList) (upperStr content)
        || containsSub ("NEEDS_DEBATE".toList) (upperStr content)) = false →
      extractRecommendation content = "UNCLEAR".toList) ∧
    (containsSub ("APPROVED".toList) (upperStr content) = true →
      containsSub ("CONDITIONAL".toList) (upperStr content) = true →
      containsSub ("REJECTED".toList) (upperStr content) = false →
      extractRecommendation content = "CONDITIONAL".toList) ∧
    (containsSub ("APPROVED".toList) (upperStr content) = false →
      containsSub ("REJECTED".toList) (upperStr content) = false →
      containsSub ("CONDITIONAL".toList) (upperStr content) = false →
      containsSub ("NEEDS_DEBATE".toList) (upperStr content) = false →
      extractRecommendation content = "UNCLEAR".toList) := by
  refine ⟨?_, ?_, ?_, ?_, ?_, ?_⟩
  · intro hA hC
    simp only [extractRecommendation]
    simp_all
  · intro hAC hR
    simp only [extractRecommendation]
    simp_all
  · intro hAC hR hCN
    simp only [extractRecommendation]
    simp_all
  · intro hAC hR hCN
    simp only [extractRecommendation]
    simp_all
  · intro hA hC hR
    simp only [extractRecommendation]
    simp_all
  · intro hA hR hC hN
    simp only [extractRecommendation]
    simp_all

/-- Witness for the amended C4: a text with both APPROVED and CONDITIONAL
(and no REJECTED) extracts CONDITIONAL. -/
theorem C4_witness :
    containsSub ("APPROVED".toList)
      (upperStr ("approved, but conditional on fixes".toList)) = true ∧
    containsSub ("CONDITIONAL".toList)
      (upperStr ("approved, but conditional on fixes".toList)) = true ∧
    containsSub ("REJECTED".toList)
      (upperStr ("approved, but conditional on fixes".toList)) = false ∧
    extractRecommendation ("approved, but conditional on fixes".toList)
      = "CONDITIONAL".toList :=
  ⟨by decide, by decide, by decide,
    (C4_extract_recommendation_order
      ("approved, but conditional on fixes".toList)).2.2.2.2.1
      (by decide) (by decide) (by decide)⟩

/-- Counting the elements satisfying a predicate and those failing it
partitions the length of a list. -/
theorem countP_add_countP_not {α : Type} (p : α → Bool) (l : List α) :
    l.countP p + l.countP (fun a => !p a) = l.length := by
  induction l with
  | nil => simp
  | cons a l ih =>
    by_cases h : p a
    · simp [List.countP_cons, h]
      omega
    · simp [List.countP_cons, h]
      omega

/-- C5: for a parallel stage over the submitted futures, whatever completion
order the thread pool produces, `execute_parallel` returns exactly one
response per submitted model; with `K` the number of calls that settle
unsuccessfully (failed `ModelResponse` or raised future), the result has
`failure_count = K` and `success_count = N − K`, and the two counts
partition `N`.  Individual failures are absorbed by `settleFuture` into
failed responses, never raised.  (The source requires a non-empty stage:
`ThreadPoolExecutor` rejects a zero worker count.) -/
theorem C5_execute_parallel_counts (elapsed : Fl)
    (submitted completed : List (Str × Except Str ModelResponse))
    (hperm : completed.Perm submitted) (_hne : submitted ≠ []) :
    (executeParallel elapsed completed).responses.length = submitted.length ∧
    (executeParallel elapsed completed).failure_count
      = (submitted.map (fun p => settleFuture p.1 p.2)).countP
          (fun resp => !resp.success) ∧
    (executeParallel elapsed completed).success_count
      = submitted.length
        - (submitted.map (fun p => settleFuture p.1 p.2)).countP
            (fun resp => !resp.success) ∧
    (executeParallel elapsed completed).success_count
        + (executeParallel elapsed completed).failure_count
      = submitted.length := by
  have hmap : (completed.map (fun p => settleFuture p.1 p.2)).Perm
      (submitted.map (fun p => settleFuture p.1 p.2)) := hperm.map _
  have hlen : (completed.map (fun p => settleFuture p.1 p.2)).length
      = submitted.length := by
    simpa using hperm.length_eq
  have hsucc : (executeParallel elapsed completed).success_count
      = (submitted.map (fun p => settleFuture p.1 p.2)).countP
          (fun resp => resp.success) := by
    simp only [executeParallel]
    exact hmap.countP_eq _
  have hpart := countP_add_countP_not (fun (resp : ModelResponse) => resp.success)
    (submitted.map (fun p => settleFuture p.1 p.2))
  have hfail : (executeParallel elapsed completed).failure_count
      = (executeParallel elapsed completed).responses.length
        - (executeParallel elapsed completed).success_count := rfl
  have hrlen : (executeParallel elapsed completed).responses.length
      = submitted.length := by
    simp only [executeParallel]
    simpa using hperm.length_eq
  refine ⟨hrlen, ?_, ?_, ?_⟩
  · rw [hfail, hrlen, hsucc]
    simp only [List.length_map] at hpart
    omega
  · rw [hsucc]
    simp only [List.length_map] at hpart
    omega
  · rw [hfail, hrlen, hsucc]
    simp only [List.length_map] at hpart
    omega

/-- Witness for C5: three submitted futures (one success, one failed
response, one raised future) completing in a different order yield three
responses, one success and two failures. -/
theorem C5_witness :
    (executeParallel ⟨1, 1⟩
      [ ("b".toList, Except.error ("boom".toList))
      , ("a".toList, Except.ok ⟨"a".toList, "ok".toList, true, ⟨0, 1⟩, 7, none, none⟩)
      , ("c".toList, Except.ok (execTimeoutResp ("c".toList))) ]).responses.length = 3 ∧
    (executeParallel ⟨1, 1⟩
      [ ("b".toList, Except.error ("boom".toList))
      , ("a".toList, Except.ok ⟨"a".toList, "ok".toList, true, ⟨0, 1⟩, 7, none, none⟩)
      , ("c".toList, Except.ok (execTimeoutResp ("c".toList))) ]).success_count = 1 ∧
    (executeParallel ⟨1, 1⟩
      [ ("b".toList, Except.error ("boom".toList))
      , ("a".toList, Except.ok ⟨"a".toList, "ok".toList, true, ⟨0, 1⟩, 7, none, none⟩)
      , ("c".toList, Except.ok (execTimeoutResp ("c".toList))) ]).failure_count = 2 := by
  have h := C5_execute_parallel_counts ⟨1, 1⟩
    [ ("a".toList, Except.ok ⟨"a".toList, "ok".toList, true, ⟨0, 1⟩, 7, none, none⟩)
    , ("b".toList, Except.error ("boom".toList))
    , ("c".toList, Except.ok (execTimeoutResp ("c".toList))) ]
    [ ("b".toList, Except.error ("boom".toList))
    , ("a".toList, Except.ok ⟨"a".toList, "ok".toList, true, ⟨0, 1⟩, 7, none, none⟩)
    , ("c".toList, Except.ok (execTimeoutResp ("c".toList))) ]
    (List.Perm.swap _ _ _) (List.cons_ne_nil _ _)
  refine ⟨h.1, ?_, ?_⟩
  · rw [h.2.2.1]
    decide
  · rw [h.2.1]
    decide

/-- C6 counterexample: through `ParallelExecutor._execute_model` with every
attempt timing out, a call to "deepseek-v3" hops along the fallback chain
(gemini-flash, then gemini-flash-fallback) and returns the timeout failure
of "gemini-flash-fallback" — a network timeout did trigger fallback hops to
different aliases, with no same-alias retry, contrary to the claim. -/
theorem C6_counterexample :
    executeModel modelFallbacks (fun _ => ExecOutcome.timeout) 10
      ("deepseek-v3".toList)
      = some (execTimeoutResp ("gemini-flash-fallback".toList)) ∧
    ("gemini-flash-fallback".toList : Str) ≠ "deepseek-v3".toList := by
  decide

/-- C6 (amended): on timeout, `CouncilGateway.call_model` retries the same
alias up to 2 additional attempts and, when every attempt times out,
returns a failed response with the timeout error for that same alias after
exactly 3 attempts, with no fallback hop; `ParallelExecutor._execute_model`,
by contrast, performs no same-alias retry on timeout — it hops directly to
the configured fallback alias when one exists, is non-empty and differs
from the current alias, and returns the timeout failure only when no such
fallback applies. -/
theorem C6_timeout_retry_vs_fallback :
    (∀ (fallbacks : Str → Option Str) (backend : Str → Nat → BackendOutcome)
        (model : Str) (fuel : Nat),
      (∀ i, backend model i = BackendOutcome.timeout) →
      callModel fallbacks backend (fuel + 1) model
        = some (⟨false, none, model, 0, some GwErr.timeoutErr⟩, 3)) ∧
    (∀ (fallbacks : Str → Option Str) (backend : Str → ExecOutcome)
        (model fb : Str) (fuel : Nat),
      backend model = ExecOutcome.timeout →
      fallbacks model = some fb → fb ≠ [] → fb ≠ model →
      executeModel fallbacks backend (fuel + 1) model
        = executeModel fallbacks backend fuel fb) ∧
    (∀ (fallbacks : Str → Option Str) (backend : Str → ExecOutcome)
        (model : Str) (fuel : Nat),
      backend model = ExecOutcome.timeout →
      fallbacks model = none →
      executeModel fallbacks backend (fuel + 1) model
        = some (execTimeoutResp model)) := by
  refine ⟨?_, ?_, ?_⟩
  · intro fallbacks backend model fuel h
    simp [callModel, callModelGo, h 0, h 1, h 2, maxRetries]
  · intro fallbacks backend model fb fuel hb hfb hne hnm
    cases fb with
    | nil => exact absurd rfl hne
    | cons a t =>
      simp [executeModel, hb, hfb, hnm]
  · intro fallbacks backend model fuel hb hfb
    simp [executeModel, hb, hfb]

/-- Witness for the amended C6: a concrete always-timeout backend — the
gateway returns the same-alias timeout failure after 3 attempts, while the
executor hops from deepseek-v3 to its fallback gemini-flash. -/
theorem C6_witness :
    callModel modelFallbacks (fun _ _ => BackendOutcome.timeout) 3
      ("claude-sonnet".toList)
      = some (⟨false, none, "claude-sonnet".toList, 0, some GwErr.timeoutErr⟩, 3) ∧
    executeModel modelFallbacks (fun _ => ExecOutcome.timeout) 3
      ("deepseek-v3".toList)
      = executeModel modelFallbacks (fun _ => ExecOutcome.timeout) 2
          ("gemini-flash".toList) :=
  ⟨C6_timeout_retry_vs_fallback.1 modelFallbacks (fun _ _ => BackendOutcome.timeout)
      ("claude-sonnet".toList) 2 (fun _ => rfl),
    C6_timeout_retry_vs_fallback.2.1 modelFallbacks (fun _ => ExecOutcome.timeout)
      ("deepseek-v3".toList) ("gemini-flash".toList) 2 rfl (by decide)
      (by decide) (by decide)⟩

/-- C7: for any fallback configuration with an acyclic chain from the start
alias, a backend that persistently raises non-timeout request failures
yields a failed terminal response — with fuel equal to the chain length,
i.e. the recursion terminates — and the total number of HTTP attempts is
the chain length, in particular at most `chain_length × (1 + retry_budget)`
with the retry budget `maxRetries = 2`. -/
theorem C7_acyclic_chain_terminates (fallbacks : Str → Option Str)
    (backend : Str → Nat → BackendOutcome) (msgOf : Str → Str)
    (start : Str) (chain : List Str)
    (hchain : ChainFrom fallbacks start chain)
    (hbackend : ∀ m i, backend m i = BackendOutcome.requestFailed (msgOf m)) :
    ∃ r : GwResponse,
      callModel fallbacks backend chain.length start = some (r, chain.length)
      ∧ r.success = false
      ∧ r.error = some GwErr.requestFailedErr
      ∧ chain.length ≤ chain.length * (1 + maxRetries) := by
  induction hchain with
  | last m hnone =>
    refine ⟨⟨false, none, m, 0, some GwErr.requestFailedErr⟩, ?_, rfl, rfl, ?_⟩
    · simp [callModel, callModelGo, hbackend m 0, hnone]
    · simp [maxRetries]
  | step m fb rest hfb hne hrest ih =>
    obtain ⟨r, hcall, hsucc, herr, _⟩ := ih
    refine ⟨r, ?_, hsucc, herr, ?_⟩
    · cases fb with
      | nil => exact absurd rfl hne
      | cons a t =>
        simp [callModel, callModelGo, hbackend m 0, hfb, hcall, List.length_cons]
    · simp [maxRetries]

/-- Witness for C7: the concrete acyclic chain
deepseek-v3 → gemini-flash → gemini-flash-fallback of `MODEL_FALLBACKS`
under a persistently failing backend terminates with a failed response in
3 attempts. -/
theorem C7_witness :
    ∃ r : GwResponse,
      callModel modelFallbacks
          (fun _ _ => BackendOutcome.requestFailed ("refused".toList)) 3
          ("deepseek-v3".toList)
        = some (r, 3)
      ∧ r.success = false ∧ r.error = some GwErr.requestFailedErr
      ∧ 3 ≤ 3 * (1 + maxRetries) := by
  have h := C7_acyclic_chain_terminates modelFallbacks
    (fun _ _ => BackendOutcome.requestFailed ("refused".toList))
    (fun _ => "refused".toList) ("deepseek-v3".toList)
    [ "deepseek-v3".toList, "gemini-flash".toList, "gemini-flash-fallback".toList ]
    (ChainFrom.step _ _ _ (by decide) (by decide)
      (ChainFrom.step _ _ _ (by decide) (by decide)
        (ChainFrom.last _ (by decide))))
    (fun m i => rfl)
  simpa using h

/-- C8: in `execute_diamond_debate` the upstream outputs are embedded
verbatim — each downstream prompt length is a fixed template length plus
the full length of every embedded upstream output, so no bounded character
budget (500–2,000) is applied before insertion; at the concrete failing
input (an Architect proposal of 5,000 characters) the Auditor prompt
contains the proposal in full and exceeds the template length plus any
2,000-character budget. -/
theorem C8_debate_prompts_not_truncated :
    (∀ proposal : Str, (step2Prompt proposal).length
        = step2PromptPre.length + proposal.length + step2PromptPost.length) ∧
    (∀ proposal critique context : Str,
      (step3Prompt proposal critique context).length
        = step3PromptPre.length + proposal.length + step3PromptMid.length
          + critique.length + step3PromptPost.length + context.length) ∧
    (∀ proposal critique analysis : Str,
      (step4Prompt proposal critique analysis).length
        = step4PromptPre.length + proposal.length + step4PromptMid1.length
          + critique.length + step4PromptMid2.length + analysis.length
          + step4PromptPost.length) ∧
    (List.replicate 5000 'a' <:+: step2Prompt (List.replicate 5000 'a')) ∧
    (step2PromptPre.length + 2000 + step2PromptPost.length
      < (step2Prompt (List.replicate 5000 'a')).length) := by
  have h2 : ∀ proposal : Str, (step2Prompt proposal).length
      = step2PromptPre.length + proposal.length + step2PromptPost.length := by
    intro proposal
    simp only [step2Prompt, List.length_append]
  refine ⟨h2, ?_, ?_, ?_, ?_⟩
  · intro proposal critique context
    simp only [step3Prompt, List.length_append]
  · intro proposal critique analysis
    simp only [step4Prompt, List.length_append]
  · exact ⟨step2PromptPre, step2PromptPost,
      by simp only [step2Prompt, List.append_assoc]⟩
  · rw [h2 (List.replicate 5000 'a'), List.length_replicate]
    omega

/-- C9: tier classification is total with exactly the four tiers as values;
the explicit tags take precedence in the order council_v2, council_lite,
research; and with no tag present a simple-implementation keyword forces
tier_1 regardless of any other (architecture/docs) keywords. -/
theorem C9_tier_classification_total_precedence (query : Str) :
    (classifyQueryTier query = "tier_1".toList
      ∨ classifyQueryTier query = "tier_2".toList
      ∨ classifyQueryTier query = "tier_3".toList
      ∨ classifyQueryTier query = "tier_3_lite".toList) ∧
    (containsSub ("@council_v2".toList) (lowerStr query) = true →
      classifyQueryTier query = "tier_3".toList) ∧
    (containsSub ("@council_v2".toList) (lowerStr query) = false →
      containsSub ("@council_lite".toList) (lowerStr query) = true →
      classifyQueryTier query = "tier_3_lite".toList) ∧
    (containsSub ("@council_v2".toList) (lowerStr query) = false →
      containsSub ("@council_lite".toList) (lowerStr query) = false →
      containsSub ("@research".toList) (lowerStr query) = true →
      classifyQueryTier query = "tier_2".toList) ∧
    (containsSub ("@council_v2".toList) (lowerStr query) = false →
      containsSub ("@council_lite".toList) (lowerStr query) = false →
      containsSub ("@research".toList) (lowerStr query) = false →
      SIMPLE_IMPLEMENTATION_KEYWORDS.any
        (fun kw => containsSub kw (lowerStr query)) = true →
      classifyQueryTier query = "tier_1".toList) := by
  refine ⟨?_, ?_, ?_, ?_, ?_⟩
  · simp only [classifyQueryTier]
    split_ifs <;> simp
  · intro h1
    simp only [classifyQueryTier]
    simp_all
  · intro h1 h2
    simp only [classifyQueryTier]
    simp_all
  · intro h1 h2 h3
    simp only [classifyQueryTier]
    simp_all
  · intro h1 h2 h3 h4
    simp only [classifyQueryTier]
    simp_all

/-- Witness for C9: "fix this architecture" has both a simple-implementation
keyword and an architecture keyword and no tag, and classifies tier_1. -/
theorem C9_witness :
    SIMPLE_IMPLEMENTATION_KEYWORDS.any
      (fun kw => containsSub kw (lowerStr ("fix this architecture".toList))) = true ∧
    ARCHITECTURAL_KEYWORDS.any
      (fun kw => containsSub kw (lowerStr ("fix this architecture".toList))) = true ∧
    classifyQueryTier ("fix this architecture".toList) = "tier_1".toList :=
  ⟨by decide, by decide,
    (C9_tier_classification_total_precedence
      ("fix this architecture".toList)).2.2.2.2
      (by decide) (by decide) (by decide) (by decide)⟩

/-- C10: the shipped `MODEL_FALLBACKS` maps claude-sonnet and opus-synthesis
to each other, and on this cyclic configuration a backend that persistently
raises non-timeout request failures makes the recursive fallback of
`call_model` diverge for either alias: no amount of fuel produces a
response. -/
theorem C10_fallback_cycle_diverges :
    modelFallbacks ("claude-sonnet".toList) = some ("opus-synthesis".toList) ∧
    modelFallbacks ("opus-synthesis".toList) = some ("claude-sonnet".toList) ∧
    (∀ (backend : Str → Nat → BackendOutcome) (msgOf : Str → Str),
      (∀ m i, backend m i = BackendOutcome.requestFailed (msgOf m)) →
      ∀ fuel : Nat,
        callModel modelFallbacks backend fuel ("claude-sonnet".toList) = none ∧
        callModel modelFallbacks backend fuel ("opus-synthesis".toList) = none) := by
  have hcs : modelFallbacks ("claude-sonnet".toList)
      = some ("opus-synthesis".toList) := by decide
  have hos : modelFallbacks ("opus-synthesis".toList)
      = some ("claude-sonnet".toList) := by decide
  have hcs2 := hcs
  have hos2 := hos
  simp at hcs2 hos2
  refine ⟨hcs, hos, ?_⟩
  intro backend msgOf hb fuel
  induction fuel with
  | zero => exact ⟨rfl, rfl⟩
  | succ n ih =>
    constructor
    · simp [callModel, callModelGo, hb, hcs2]
      exact ih.2
    · simp [callModel, callModelGo, hb, hos2]
      exact ih.1

/-- Witness for C10: with a concrete persistently failing backend, the
cyclic chain starting at claude-sonnet yields no response at fuel 7. -/
theorem C10_witness :
    callModel modelFallbacks
      (fun _ _ => BackendOutcome.requestFailed ("refused".toList)) 7
      ("claude-sonnet".toList) = none :=
  (C10_fallback_cycle_diverges.2.2
    (fun _ _ => BackendOutcome.requestFailed ("refused".toList))
    (fun _ => "refused".toList) (fun _ _ => rfl) 7).1
